import Mathlib

/- A shallow embedding of the Maven scanner (firefly_sbom/scanners/maven.py)
and the security auditor (firefly_sbom/auditors/__init__.py) of the
firefly-oss sbom-tool repository. External effects (subprocess invocations,
the filesystem, HTTP queries) are modelled as explicit oracle values passed
in; Python try/except control flow becomes Except; Python Optional values
become Option; Python f-string interpolation becomes string concatenation. -/

/-- Canonical component record: the field set passed by the Maven scanner to
Scanner.create_component (name, version, type, scope, group, purl). -/
structure Component where
  name : String
  version : String
  type : String
  scope : String
  group : Option String
  purl : String
deriving DecidableEq

/-- Modelled from the spec: Scanner.create_component is defined in
scanners/base.py, which is not among the sources. Section 3 of the spec
describes the Component as a pure data contract with no behavior, created by
a scanner during one scan pass and immutable thereafter, so create_component
is the plain constructor recording exactly the fields the scanner passes. -/
def create_component (name version type scope : String) (group : Option String)
    (purl : String) : Component :=
  ⟨name, version, type, scope, group, purl⟩

/-- Modelled from the spec: Scanner._is_dev_dependency is defined in
scanners/base.py, which is not among the sources. Section 4.1 of the spec
says each ecosystem maps its native scope vocabulary (for Maven: "test",
"provided") to the dev classification. -/
def is_dev_dependency (scope : String) : Bool :=
  scope == "test" || scope == "provided"

/-- Rendering of a Python Optional string interpolated into an f-string:
the Python constant None prints as the four letters None. -/
def fmtOptStr : Option String → String
  | none => "None"
  | some s => s

/-- Python str.startswith, over the underlying character lists. -/
def startswith (s p : String) : Bool :=
  p.data.isPrefixOf s.data

/-- Python str.split with an explicit one-character separator: splits at
every occurrence and keeps empty parts, so the result is always nonempty. -/
def splitOnChar (sep : Char) : List Char → List (List Char)
  | [] => [[]]
  | c :: cs =>
    let r := splitOnChar sep cs
    if c = sep then [] :: r
    else
      match r with
      | [] => [[c]]
      | h :: t => (c :: h) :: t

/-- One artifact node of the JSON dependency tree written by mvn
dependency:tree -DoutputType=json, restricted to the keys read by
MavenScanner._process_maven_artifact: "groupId", "artifactId" and "version"
default to the empty string when missing, a missing "scope" key is none, and
a missing "children" key behaves exactly like an empty children list. -/
inductive MavenArtifact where
  | mk (groupId artifactId version : String) (scope : Option String)
      (children : List MavenArtifact)

/-- The JSON value loaded from dependency-tree.json, as case-analysed by
MavenScanner._parse_maven_tree: a dict, a list of dicts, or anything else
(which produces no components). -/
inductive TreeData where
  | obj (artifact : MavenArtifact)
  | arr (artifacts : List MavenArtifact)
  | other

mutual

/-- MavenScanner._process_maven_artifact: reads the artifact fields, skips
the artifact (and its whole subtree) when it is a dev dependency being
filtered out, otherwise emits one component with the inline f-string purl
and recurses into the children with scope "transitive". -/
def process_maven_artifact (incl : Bool) (scope : String) : MavenArtifact → List Component
  | .mk g a v s children =>
    let artifactScope := s.getD "compile"
    if !incl && is_dev_dependency artifactScope then []
    else
      create_component a v "library" scope (some g)
          ("pkg:maven/" ++ g ++ "/" ++ a ++ "@" ++ v) ::
        process_children incl children

/-- The loop over the "children" array inside _process_maven_artifact, each
child processed with scope "transitive". -/
def process_children (incl : Bool) : List MavenArtifact → List Component
  | [] => []
  | c :: cs => process_maven_artifact incl "transitive" c ++ process_children incl cs

end

/-- The loop of MavenScanner._parse_maven_tree over a top-level JSON list:
each element is processed with the default scope argument "direct". -/
def parse_maven_tree_list (incl : Bool) : List MavenArtifact → List Component
  | [] => []
  | a :: as => process_maven_artifact incl "direct" a ++ parse_maven_tree_list incl as

/-- MavenScanner._parse_maven_tree. -/
def parse_maven_tree (tree : TreeData) (incl : Bool) : List Component :=
  match tree with
  | .obj a => process_maven_artifact incl "direct" a
  | .arr as => parse_maven_tree_list incl as
  | .other => []

/-- The character class [a-zA-Z0-9.\-_] of the coordinate pattern used by
MavenScanner._parse_dependency_tree_text. -/
def isCoordChar (c : Char) : Bool :=
  ('a' ≤ c && c ≤ 'z') || ('A' ≤ c && c ≤ 'Z') || ('0' ≤ c && c ≤ '9') ||
    c = '.' || c = '-' || c = '_'

/-- Maximal run of coordinate characters at the head of the list: the greedy
match of one [a-zA-Z0-9.\-_]+ group. -/
def munchCoord : List Char → List Char × List Char
  | [] => ([], [])
  | c :: cs =>
    if isCoordChar c then
      let (t, r) := munchCoord cs
      (c :: t, r)
    else ([], c :: cs)

/-- One group of the coordinate pattern: at least one coordinate character,
matched greedily. -/
def takeGroup (cs : List Char) : Option (String × List Char) :=
  match munchCoord cs with
  | ([], _) => none
  | (t, r) => some (String.mk t, r)

/-- The literal colon separating two groups of the coordinate pattern. -/
def expectColon : List Char → Option (List Char)
  | ':' :: r => some r
  | _ => none

/-- Attempt of the five-group coordinate pattern at one start position.
Since the character class excludes the colon, the greedy groups never need
to backtrack, so maximal munch per group is exact. -/
def matchCoordAt (cs : List Char) : Option (String × String × String × String × String) := do
  let (g1, r1) ← takeGroup cs
  let r1c ← expectColon r1
  let (g2, r2) ← takeGroup r1c
  let r2c ← expectColon r2
  let (g3, r3) ← takeGroup r2c
  let r3c ← expectColon r3
  let (g4, r4) ← takeGroup r3c
  let r4c ← expectColon r4
  let (g5, _) ← takeGroup r4c
  pure (g1, g2, g3, g4, g5)

/-- re.search of the coordinate pattern over one line: the attempt positions
are tried left to right and the first successful one wins, exactly the
Python semantics for this backtracking-free pattern. -/
def searchCoord : List Char → Option (String × String × String × String × String)
  | [] => none
  | c :: cs =>
    match matchCoordAt (c :: cs) with
    | some m => some m
    | none => searchCoord cs

/-- The body of the per-line loop of MavenScanner._parse_dependency_tree_text:
search the line for the coordinate pattern, filter dev scopes, classify the
component as "direct" exactly when the line starts with the string
"[INFO] +-" and as "transitive" otherwise. -/
def parse_tree_line (incl : Bool) (line : String) : Option Component :=
  match searchCoord line.data with
  | none => none
  | some (g, a, _, v, s) =>
    if !incl && is_dev_dependency s then none
    else
      let depScope := if startswith line "[INFO] +-" then "direct" else "transitive"
      some (create_component a v "library" depScope (some g)
        ("pkg:maven/" ++ g ++ "/" ++ a ++ "@" ++ v))

/-- MavenScanner._parse_dependency_tree_text: split the captured stdout on
newlines and process each line in order. -/
def parse_dependency_tree_text (treeText : String) (incl : Bool) : List Component :=
  ((splitOnChar '\n' treeText.data).map String.mk).filterMap (parse_tree_line incl)

/-- One dependency element as read by MavenScanner._parse_single_pom through
_get_element_text: each child element text is none when the element is
absent. The artifactId is taken as a present string, matching the dependency
elements the code is written for. -/
structure PomDep where
  groupId : Option String
  artifactId : String
  version : Option String
  scope : Option String
deriving DecidableEq

/-- The expression scope-or-"compile" of _parse_single_pom: Python or
substitutes the default for a missing element and for an empty string, both
of which are falsy. -/
def scopeOrCompile : Option String → String
  | none => "compile"
  | some s => if s = "" then "compile" else s

/-- The Python condition version-and-not-version.startswith of
_parse_single_pom: a present, nonempty version that does not begin with a
property placeholder. -/
def literal_version : Option String → Bool
  | none => false
  | some v => (v != "") && !startswith v "$\x7b"

/-- The per-dependency body of the loop in MavenScanner._parse_single_pom:
filter dev scopes, then emit a component only for a literal version, with
scope "direct" and the inline f-string purl (a missing groupId is the Python
None and prints as "None" inside the purl). -/
def parse_pom_dep (incl : Bool) (d : PomDep) : Option Component :=
  if !incl && is_dev_dependency (scopeOrCompile d.scope) then none
  else
    match d.version with
    | none => none
    | some v =>
      if (v != "") && !startswith v "$\x7b" then
        some (create_component d.artifactId v "library" "direct" d.groupId
          ("pkg:maven/" ++ fmtOptStr d.groupId ++ "/" ++ d.artifactId ++ "@" ++ v))
      else none

/-- MavenScanner._parse_single_pom: the argument is the outcome of reading
and XML-parsing one pom.xml file. Except.error models a file on which
ET.parse raises (the ParseError handler inside _parse_single_pom returns the
empty list) and, collapsed into the same case, any other per-file exception
caught by the caller _parse_pom_files; Except.ok carries the dependency
elements found by the findall queries, in document order. -/
def parse_single_pom (parsed : Except Unit (List PomDep)) (incl : Bool) : List Component :=
  match parsed with
  | .error _ => []
  | .ok deps => deps.filterMap (parse_pom_dep incl)

/-- MavenScanner._parse_pom_files: the recursive rglob walk is modelled by
the list of per-file parse outcomes in walk order; each file contributes its
components and a failing file contributes nothing. -/
def parse_pom_files (poms : List (Except Unit (List PomDep))) (incl : Bool) : List Component :=
  match poms with
  | [] => []
  | p :: ps => parse_single_pom p incl ++ parse_pom_files ps incl

/-- MavenScanner._generate_purl: the namespace segment is inserted only for
a truthy group, so an absent or empty group yields no double slash. This
helper exists in the source but is not called by any of the three
extraction paths. -/
def generate_purl (name version : String) (group : Option String) : String :=
  match group with
  | some g =>
    if g = "" then "pkg:maven/" ++ name ++ "@" ++ version
    else "pkg:maven/" ++ g ++ "/" ++ name ++ "@" ++ version
  | none => "pkg:maven/" ++ name ++ "@" ++ version

/-- The observable outcome of one subprocess.run invocation: either the
timeout expired, which raises TimeoutExpired, or the process completed with
an exit code, stdout and stderr. -/
inductive RunOutcome where
  | timeout
  | completed (returncode : Int) (stdout stderr : String)

/-- The exception escaping MavenScanner._scan_with_maven: a TimeoutExpired
from either subprocess.run, or the explicit raise on a non-zero exit of the
JSON-mode run. -/
inductive MavenErr where
  | timedOut
  | cmdFailed (stderr : String)
deriving DecidableEq

/-- String form of the exception, as interpolated into the warning logged by
MavenScanner.scan. -/
def MavenErr.msg : MavenErr → String
  | .timedOut => "timed out"
  | .cmdFailed stderr => "Maven command failed: " ++ stderr

/-- Oracle for the external state MavenScanner.scan interacts with: whether
the mvn version probe succeeds, the outcome of the JSON-mode
dependency:tree run, the content of dependency-tree.json afterwards (none
when the file does not exist, some none when json.load raises, some (some t)
when it parses to t), and the outcome of the text-mode dependency:tree
run. -/
structure MavenEnv where
  available : Bool
  treeRun : RunOutcome
  depFile : Option (Option TreeData)
  textRun : RunOutcome

/-- MavenScanner._parse_maven_text_tree: runs mvn dependency:tree in text
mode; a timeout raises, a non-zero exit yields no components, a zero exit
parses the captured stdout. -/
def parse_maven_text_tree (env : MavenEnv) (incl : Bool) : Except MavenErr (List Component) :=
  match env.textRun with
  | .timeout => .error .timedOut
  | .completed rc out _ =>
    .ok (if rc = 0 then parse_dependency_tree_text out incl else [])

/-- MavenScanner._scan_with_maven: raises (Except.error) when a subprocess
run times out or when the JSON-mode run exits non-zero; a JSON read or parse
failure is caught internally and merely leaves the component list empty,
after which the text-mode fallback runs inside this same tier. -/
def scan_with_maven (env : MavenEnv) (incl : Bool) : Except MavenErr (List Component) :=
  match env.treeRun with
  | .timeout => .error .timedOut
  | .completed rc _ stderr =>
    if rc ≠ 0 then .error (.cmdFailed stderr)
    else
      let components :=
        match env.depFile with
        | none => []
        | some none => []
        | some (some t) => parse_maven_tree t incl
      if components.isEmpty then parse_maven_text_tree env incl
      else .ok components

/-- MavenScanner.scan: returns the component list together with the warnings
logged at this level. When Maven is unavailable it goes straight to the POM
tier; when _scan_with_maven raises, the exception is caught, a warning is
logged and the POM tier result is returned; scan itself never raises. -/
def scan (env : MavenEnv) (poms : List (Except Unit (List PomDep))) (incl : Bool) :
    List Component × List String :=
  if env.available then
    match scan_with_maven env incl with
    | .ok cs => (cs, [])
    | .error e =>
      (parse_pom_files poms incl,
        ["Maven scan failed: " ++ e.msg ++ ", falling back to POM parsing"])
  else
    (parse_pom_files poms incl, ["Maven not found, falling back to POM parsing"])

/-- Outcome of one os.stat call on a path: the entry exists, does not exist,
or stat raises an OSError (for example permission denied on a parent). -/
inductive StatOutcome where
  | found
  | notFound
  | err
deriving DecidableEq

/-- pathlib Path.exists over the stat oracle: only a successful stat yields
true; a missing entry and a raised OSError both yield false, the error
being swallowed. -/
def path_exists (fs : List String → StatOutcome) (p : List String) : Bool :=
  match fs p with
  | .found => true
  | .notFound => false
  | .err => false

/-- MavenScanner.detect: the truediv operator appends exactly one path
segment, so this checks for pom.xml directly under the given path. -/
def detect (fs : List String → StatOutcome) (path : List String) : Bool :=
  path_exists fs (path ++ ["pom.xml"])

/-- One vulnerability object of the decoded OSV response body: the auditor
reads only the keys "id" (may be missing) and "summary" (may be missing,
defaulted to the empty string) and ignores every other key, including the
severity information the source reports, modelled here by the severity
field. -/
structure Vuln where
  id : Option String
  summary : Option String
  severity : String
deriving DecidableEq

/-- One finding dict appended by SecurityAuditor.audit. -/
structure Finding where
  id : Option String
  component : String
  severity : String
  description : String
deriving DecidableEq

/-- Outcome of the requests.post call to the OSV query endpoint for one
purl: failure when the request or the body decoding raises, otherwise the
HTTP status code and the "vulns" array of the decoded body. -/
inductive QueryOutcome where
  | failure
  | response (status : Nat) (vulns : List Vuln)

/-- One component dict as seen by the auditor: the "purl" key, which may be
missing, and the "name" key. -/
structure AuditComponent where
  purl : Option String
  name : String
deriving DecidableEq

/-- The per-component body of the loop in SecurityAuditor.audit: a missing
or empty purl is skipped; a raised request, a non-200 status, and the
success path are all decided by the query oracle; every appended finding
carries the hard-coded severity string "medium". -/
def audit_one (query : String → QueryOutcome) (c : AuditComponent) : List Finding :=
  match c.purl with
  | none => []
  | some p =>
    if p = "" then []
    else
      match query p with
      | .failure => []
      | .response status vulns =>
        if status = 200 then
          vulns.map (fun v => ⟨v.id, c.name, "medium", v.summary.getD ""⟩)
        else []

/-- SecurityAuditor.audit: the loop over the component list, appending the
findings of each component in order; it never raises. -/
def audit (query : String → QueryOutcome) : List AuditComponent → List Finding
  | [] => []
  | c :: cs => audit_one query c ++ audit query cs

/-- The purl format every Maven extraction path actually emits: the group
segment is always present, rendered with Python string interpolation. -/
def maven_purl_shape (c : Component) : Prop :=
  c.purl = "pkg:maven/" ++ fmtOptStr c.group ++ "/" ++ c.name ++ "@" ++ c.version

theorem audit_append (query : String → QueryOutcome) (xs ys : List AuditComponent) :
    audit query (xs ++ ys) = audit query xs ++ audit query ys := by
  induction xs with
  | nil => rfl
  | cons c cs ih => simp [audit, ih]

mutual

theorem scope_in_artifact : ∀ (a : MavenArtifact) (incl : Bool) (scope : String)
    (c : Component), c ∈ process_maven_artifact incl scope a →
    c.scope = scope ∨ c.scope = "transitive"
  | .mk g a v s children, incl, scope, c, h => by
    unfold process_maven_artifact at h
    by_cases hd : (!incl && is_dev_dependency (s.getD "compile")) = true
    · simp [hd] at h
    · simp [hd] at h
      rcases h with h | h
      · rw [h]; exact Or.inl rfl
      · right; exact scope_in_children children incl c h

theorem scope_in_children : ∀ (cs : List MavenArtifact) (incl : Bool) (c : Component),
    c ∈ process_children incl cs → c.scope = "transitive"
  | [], _, _, h => by simp [process_children] at h
  | a :: cs, incl, c, h => by
    unfold process_children at h
    rcases List.mem_append.mp h with h | h
    · rcases scope_in_artifact a incl "transitive" c h with h | h <;> exact h
    · exact scope_in_children cs incl c h

end

mutual

theorem purl_in_artifact : ∀ (a : MavenArtifact) (incl : Bool) (scope : String)
    (c : Component), c ∈ process_maven_artifact incl scope a → maven_purl_shape c
  | .mk g a v s children, incl, scope, c, h => by
    unfold process_maven_artifact at h
    by_cases hd : (!incl && is_dev_dependency (s.getD "compile")) = true
    · simp [hd] at h
    · simp [hd] at h
      rcases h with h | h
      · rw [h]; exact rfl
      · exact purl_in_children children incl c h

theorem purl_in_children : ∀ (cs : List MavenArtifact) (incl : Bool) (c : Component),
    c ∈ process_children incl cs → maven_purl_shape c
  | [], _, _, h => by simp [process_children] at h
  | a :: cs, incl, c, h => by
    unfold process_children at h
    rcases List.mem_append.mp h with h | h
    · exact purl_in_artifact a incl "transitive" c h
    · exact purl_in_children cs incl c h

end

theorem purl_in_tree : ∀ (t : TreeData) (incl : Bool) (c : Component),
    c ∈ parse_maven_tree t incl → maven_purl_shape c := by
  intro t incl c h
  match t with
  | .obj a => exact purl_in_artifact a incl "direct" c h
  | .arr as =>
    induction as with
    | nil => simp [parse_maven_tree, parse_maven_tree_list] at h
    | cons a as ih =>
      simp only [parse_maven_tree, parse_maven_tree_list] at h ih
      rcases List.mem_append.mp h with h | h
      · exact purl_in_artifact a incl "direct" c h
      · exact ih h
  | .other => simp [parse_maven_tree] at h

theorem parse_tree_line_some (incl : Bool) (line : String) (c : Component)
    (h : parse_tree_line incl line = some c) :
    maven_purl_shape c ∧
      c.scope = (if startswith line "[INFO] +-" then "direct" else "transitive") := by
  unfold parse_tree_line at h
  split at h
  · exact absurd h (by simp)
  · split at h
    · exact absurd h (by simp)
    · rw [Option.some_inj] at h
      subst h
      constructor
      · rfl
      · rfl

theorem parse_pom_dep_spec (incl : Bool) (d : PomDep) (c : Component)
    (h : parse_pom_dep incl d = some c) :
    c.scope = "direct" ∧ maven_purl_shape c ∧
      c.version ≠ "" ∧ startswith c.version "$\x7b" = false := by
  unfold parse_pom_dep at h
  split at h
  · exact absurd h (by simp)
  · split at h
    · exact absurd h (by simp)
    · split at h
      · rename_i v hv hcond
        rw [Option.some_inj] at h
        subst h
        simp only [Bool.and_eq_true, bne_iff_ne, ne_eq, Bool.not_eq_true'] at hcond
        exact ⟨rfl, rfl, hcond.1, hcond.2⟩
      · exact absurd h (by simp)

theorem parse_single_pom_spec (parsed : Except Unit (List PomDep)) (incl : Bool)
    (c : Component) (h : c ∈ parse_single_pom parsed incl) :
    c.scope = "direct" ∧ maven_purl_shape c ∧
      c.version ≠ "" ∧ startswith c.version "$\x7b" = false := by
  match parsed with
  | .error _ => simp [parse_single_pom] at h
  | .ok deps =>
    simp only [parse_single_pom] at h
    obtain ⟨d, _, hd⟩ := List.mem_filterMap.mp h
    exact parse_pom_dep_spec incl d c hd

theorem parse_pom_files_spec (poms : List (Except Unit (List PomDep))) (incl : Bool)
    (c : Component) (h : c ∈ parse_pom_files poms incl) :
    c.scope = "direct" ∧ maven_purl_shape c ∧
      c.version ≠ "" ∧ startswith c.version "$\x7b" = false := by
  induction poms with
  | nil => simp [parse_pom_files] at h
  | cons p ps ih =>
    simp only [parse_pom_files] at h
    rcases List.mem_append.mp h with h | h
    · exact parse_single_pom_spec p incl c h
    · exact ih h

theorem parse_pom_dep_none (incl : Bool) (d : PomDep)
    (h : literal_version d.version = false) : parse_pom_dep incl d = none := by
  unfold parse_pom_dep
  unfold literal_version at h
  split
  · rfl
  · rcases hv : d.version with _ | v
    · simp only [hv]
    · rw [hv] at h
      have h2 : (v != "" && !startswith v "$\x7b") = false := h
      simp only [hv, h2, Bool.false_eq_true, if_false]

/-- C1 (counterexample): with Maven available, the JSON-mode dependency:tree
run exiting zero but leaving an unparsable dependency-tree.json, and the
text-mode fallback exiting zero with output containing no coordinate line,
the native tier has failed with unparsable output, yet scan returns the
empty tier-1 result and never consults the POM-parsing tier, whose result
here would be nonempty. -/
theorem scan_unparsable_output_skips_pom_tier :
    scan ⟨true, RunOutcome.completed 0 "" "", some none, RunOutcome.completed 0 "" ""⟩
        [Except.ok [⟨some "g", "a", some "1.0", none⟩]] false = ([], []) ∧
    parse_pom_files [Except.ok [⟨some "g", "a", some "1.0", none⟩]] false =
      [⟨"a", "1.0", "library", "direct", some "g", "pkg:maven/g/a@1.0"⟩] := by
  decide

/-- C1 (amended): whenever _scan_with_maven raises — in particular when the
JSON-mode mvn run times out or exits non-zero (and also when the text-mode
fallback run times out) — MavenScanner.scan does not raise: it catches the
exception, records one warning naming the reason, and returns the POM-file
manifest tier result. An unparsable JSON output alone does not raise; it
falls back to text-mode parsing inside tier 1, so scan can return an empty
tier-1 result without consulting the POM tier. -/
theorem scan_error_falls_back_to_pom_tier :
    (∀ (env : MavenEnv) (poms : List (Except Unit (List PomDep))) (incl : Bool)
        (e : MavenErr), env.available = true → scan_with_maven env incl = Except.error e →
        scan env poms incl =
          (parse_pom_files poms incl,
            ["Maven scan failed: " ++ e.msg ++ ", falling back to POM parsing"])) ∧
    (∀ (env : MavenEnv) (incl : Bool), env.treeRun = RunOutcome.timeout →
        scan_with_maven env incl = Except.error MavenErr.timedOut) ∧
    (∀ (env : MavenEnv) (incl : Bool) (rc : Int) (out errOut : String),
        env.treeRun = RunOutcome.completed rc out errOut → rc ≠ 0 →
        scan_with_maven env incl = Except.error (MavenErr.cmdFailed errOut)) := by
  refine ⟨?_, ?_, ?_⟩
  · intro env poms incl e ha he
    unfold scan
    simp only [ha, if_true, he]
  · intro env incl ht
    unfold scan_with_maven
    rw [ht]
  · intro env incl rc out errOut ht hrc
    unfold scan_with_maven
    rw [ht]
    simp [hrc]

theorem scan_error_falls_back_to_pom_tier_witness :
    scan ⟨true, RunOutcome.timeout, none, RunOutcome.timeout⟩
        [Except.ok [⟨some "g", "a", some "1.0", none⟩]] false =
      (parse_pom_files [Except.ok [⟨some "g", "a", some "1.0", none⟩]] false,
        ["Maven scan failed: timed out, falling back to POM parsing"]) ∧
    scan_with_maven ⟨true, RunOutcome.timeout, none, RunOutcome.timeout⟩ false =
      Except.error MavenErr.timedOut ∧
    scan_with_maven ⟨true, RunOutcome.completed 1 "" "boom", none, RunOutcome.timeout⟩ false =
      Except.error (MavenErr.cmdFailed "boom") :=
  ⟨scan_error_falls_back_to_pom_tier.1 _ _ false MavenErr.timedOut rfl
      (scan_error_falls_back_to_pom_tier.2.1 _ false rfl),
    scan_error_falls_back_to_pom_tier.2.1 _ false rfl,
    scan_error_falls_back_to_pom_tier.2.2 _ false 1 "" "boom" rfl (by decide)⟩

/-- C2 (counterexample): a JSON tree artifact with no groupId and no
artifactId (both default to the empty string) yields a component whose name
is empty and whose purl keeps the empty namespace segment — a double
slash — unlike the namespace-omitting _generate_purl, which none of the
extraction paths calls. -/
theorem maven_purl_empty_group_double_slash :
    parse_maven_tree (TreeData.obj (MavenArtifact.mk "" "" "1.0" none [])) true =
      [⟨"", "1.0", "library", "direct", some "", "pkg:maven//@1.0"⟩] ∧
    Component.name ⟨"", "1.0", "library", "direct", some "", "pkg:maven//@1.0"⟩ = "" ∧
    Component.purl ⟨"", "1.0", "library", "direct", some "", "pkg:maven//@1.0"⟩ ≠
      generate_purl "" "1.0" (some "") := by
  decide

/-- C2 (amended): every component produced by any of the three Maven
extraction paths has a purl equal to the inline interpolation
pkg:maven/(group)/(name)@(version) with the namespace segment always
present: an empty group yields a double slash, a missing POM groupId prints
as None, and the name is the artifactId as given, possibly empty. -/
theorem maven_component_purl_inlines_group :
    ∀ (incl : Bool) (c : Component),
      ((∃ t, c ∈ parse_maven_tree t incl) ∨
        (∃ txt, c ∈ parse_dependency_tree_text txt incl) ∨
        (∃ poms, c ∈ parse_pom_files poms incl)) →
      maven_purl_shape c := by
  intro incl c h
  rcases h with ⟨t, h⟩ | ⟨txt, h⟩ | ⟨poms, h⟩
  · exact purl_in_tree t incl c h
  · obtain ⟨line, _, hline⟩ := List.mem_filterMap.mp h
    exact (parse_tree_line_some incl line c hline).1
  · exact (parse_pom_files_spec poms incl c h).2.1

theorem maven_component_purl_inlines_group_witness :
    maven_purl_shape ⟨"", "1.0", "library", "direct", some "", "pkg:maven//@1.0"⟩ :=
  maven_component_purl_inlines_group true _
    (Or.inl ⟨TreeData.obj (MavenArtifact.mk "" "" "1.0" none []), by decide⟩)

/-- C3: SecurityAuditor.audit is a total function; a component with a
missing (or empty, hence falsy) purl is skipped, a component whose query
raises or returns a non-200 status contributes no findings, and the
findings of the surrounding components are returned unchanged. -/
theorem audit_skips_failed_component :
    ∀ (query : String → QueryOutcome) (pre : List AuditComponent) (c : AuditComponent)
      (post : List AuditComponent),
      (c.purl = none ∨ c.purl = some "" ∨
        ∀ p, c.purl = some p →
          query p = QueryOutcome.failure ∨
          ∃ s vs, query p = QueryOutcome.response s vs ∧ s ≠ 200) →
      audit query (pre ++ c :: post) = audit query pre ++ audit query post := by
  intro query pre c post h
  have hone : audit_one query c = [] := by
    unfold audit_one
    rcases h with h | h | h
    · rw [h]
    · rw [h]; simp
    · rcases hp : c.purl with _ | p
      · rfl
      · by_cases hpe : p = ""
        · simp [hpe]
        · rcases h p hp with hq | ⟨s, vs, hq, hs⟩
          · simp [hpe, hq]
          · simp [hpe, hq, hs]
  rw [audit_append query pre (c :: post)]
  simp [audit, hone]

theorem audit_skips_failed_component_witness :
    audit (fun _ => QueryOutcome.failure)
        ([⟨none, "b"⟩] ++ ⟨some "pkg:maven/g/a@1.0", "a"⟩ :: [⟨some "q", "c"⟩]) =
      audit (fun _ => QueryOutcome.failure) [⟨none, "b"⟩] ++
        audit (fun _ => QueryOutcome.failure) [⟨some "q", "c"⟩] :=
  audit_skips_failed_component _ _ _ _ (Or.inr (Or.inr (fun _ _ => Or.inl rfl)))

/-- C4 (counterexample): the vulnerability source reports severity critical
for the single vulnerability it returns, but the finding built from it
carries the hard-coded severity medium. -/
theorem audit_severity_not_passed_through :
    audit (fun _ => QueryOutcome.response 200 [⟨some "CVE-2024-1", some "desc", "critical"⟩])
        [⟨some "pkg:maven/g/a@1.0", "a"⟩] =
      [⟨some "CVE-2024-1", "a", "medium", "desc"⟩] ∧
    ("medium" : String) ≠ "critical" := by
  decide

/-- C4 (amended): each finding carries the component name, the vulnerability
id and the summary reported by the source as its description, but its
severity is always the constant string "medium", whatever severity the
source reports. -/
theorem audit_findings_fixed_medium_severity :
    ∀ (query : String → QueryOutcome) (c : AuditComponent) (p : String) (vs : List Vuln),
      c.purl = some p → p ≠ "" → query p = QueryOutcome.response 200 vs →
      audit query [c] =
        vs.map (fun v => ⟨v.id, c.name, "medium", v.summary.getD ""⟩) := by
  intro query c p vs hp hpe hq
  simp only [audit]
  unfold audit_one
  rw [hp]
  simp [hpe, hq]

theorem audit_findings_fixed_medium_severity_witness :
    audit (fun _ => QueryOutcome.response 200 [⟨some "CVE-2024-2", none, "high"⟩])
        [⟨some "pkg:maven/g/b@2.0", "b"⟩] =
      [⟨some "CVE-2024-2", "b", "medium", ""⟩] :=
  audit_findings_fixed_medium_severity _ ⟨some "pkg:maven/g/b@2.0", "b"⟩
    "pkg:maven/g/b@2.0" [⟨some "CVE-2024-2", none, "high"⟩] rfl (by decide) rfl

/-- C5: every component produced by the POM manifest fallback tier has scope
"direct"; the tier never emits a component with scope "transitive". -/
theorem pom_fallback_components_direct :
    ∀ (poms : List (Except Unit (List PomDep))) (incl : Bool) (c : Component),
      c ∈ parse_pom_files poms incl → c.scope = "direct" := by
  intro poms incl c h
  exact (parse_pom_files_spec poms incl c h).1

theorem pom_fallback_components_direct_witness :
    Component.scope ⟨"a", "1.0", "library", "direct", some "g", "pkg:maven/g/a@1.0"⟩ =
      "direct" :=
  pom_fallback_components_direct [Except.ok [⟨some "g", "a", some "1.0", none⟩]] false _
    (by decide)

/-- C6: a pom.xml on which parsing raises is skipped — it contributes no
components — and the components of every other manifest in the walk, before
and after it, are still returned; the walk itself is a total function and
never aborts on a malformed manifest. -/
theorem pom_files_skip_malformed_manifest :
    ∀ (incl : Bool) (pre post : List (Except Unit (List PomDep))),
      parse_pom_files (pre ++ Except.error () :: post) incl =
        parse_pom_files pre incl ++ parse_pom_files post incl := by
  intro incl pre post
  induction pre with
  | nil => simp [parse_pom_files, parse_single_pom]
  | cons p ps ih => simp [parse_pom_files, ih]

/-- C7: detect returns true exactly when the entry pom.xml directly under
the given path stats successfully; a missing entry and a raised OSError (an
unreadable path) both give false, and the model is a pure total function of
the stat oracle, so nothing is thrown and nothing is written. -/
theorem detect_checks_pom_existence :
    ∀ (fs : List String → StatOutcome) (path : List String),
      detect fs path = true ↔ fs (path ++ ["pom.xml"]) = StatOutcome.found := by
  intro fs path
  unfold detect path_exists
  cases h : fs (path ++ ["pom.xml"]) <;> simp [h]

/-- C8: whenever a line of the text dependency tree yields a component, the
scope of that component is "direct" exactly when the line starts with the
prefix "[INFO] +-" and "transitive" for every other matching line. -/
theorem text_tree_scope_from_line_start :
    ∀ (incl : Bool) (line : String) (c : Component),
      parse_tree_line incl line = some c →
      c.scope = (if startswith line "[INFO] +-" then "direct" else "transitive") := by
  intro incl line c h
  exact (parse_tree_line_some incl line c h).2

theorem text_tree_scope_from_line_start_witness :
    Component.scope
        ⟨"bar", "1.0", "library", "direct", some "org.foo", "pkg:maven/org.foo/bar@1.0"⟩ =
      (if startswith "[INFO] +- org.foo:bar:jar:1.0:compile" "[INFO] +-" then "direct"
        else "transitive") :=
  text_tree_scope_from_line_start true "[INFO] +- org.foo:bar:jar:1.0:compile" _ (by decide)

/-- C9 (counterexample): with include_dev false, a root artifact carrying
scope test is dropped together with its whole subtree, so the parsed JSON
tree contains no component at all — in particular the root artifact is not
included as a component with scope "direct" — while the same tree with
include_dev true shows the tree is otherwise well formed. -/
theorem json_tree_dev_root_not_included :
    parse_maven_tree (TreeData.obj (MavenArtifact.mk "g" "a" "1.0" (some "test")
        [MavenArtifact.mk "h" "b" "2.0" none []])) false = [] ∧
    parse_maven_tree (TreeData.obj (MavenArtifact.mk "g" "a" "1.0" (some "test")
        [MavenArtifact.mk "h" "b" "2.0" none []])) true =
      [⟨"a", "1.0", "library", "direct", some "g", "pkg:maven/g/a@1.0"⟩,
        ⟨"b", "2.0", "library", "transitive", some "h", "pkg:maven/h/b@2.0"⟩] := by
  decide

/-- C9 (amended): unless the root artifact itself is dropped by dev
filtering, the parsed JSON tree is exactly the root component with scope
"direct" followed by the processed children, and every component strictly
below the root — the immediate children of the root included — has scope
"transitive". -/
theorem json_tree_root_direct_rest_transitive :
    ∀ (g a v : String) (s : Option String) (children : List MavenArtifact) (incl : Bool),
      (incl = true ∨ is_dev_dependency (s.getD "compile") = false) →
      parse_maven_tree (TreeData.obj (MavenArtifact.mk g a v s children)) incl =
        (⟨a, v, "library", "direct", some g,
            "pkg:maven/" ++ g ++ "/" ++ a ++ "@" ++ v⟩ : Component) ::
          process_children incl children ∧
      ∀ c ∈ process_children incl children, c.scope = "transitive" := by
  intro g a v s children incl h
  constructor
  · have hcond : (!incl && is_dev_dependency (s.getD "compile")) = false := by
      rcases h with h | h
      · rw [h]; rfl
      · rw [h]; simp
    unfold parse_maven_tree process_maven_artifact
    simp only [hcond, Bool.false_eq_true, if_false]
    rfl
  · intro c hc
    exact scope_in_children children incl c hc

theorem json_tree_root_direct_rest_transitive_witness :
    parse_maven_tree (TreeData.obj (MavenArtifact.mk "g" "a" "1.0" (some "test")
        [MavenArtifact.mk "h" "b" "2.0" none []])) true =
      (⟨"a", "1.0", "library", "direct", some "g", "pkg:maven/g/a@1.0"⟩ : Component) ::
        process_children true [MavenArtifact.mk "h" "b" "2.0" none []] ∧
    Component.scope ⟨"b", "2.0", "library", "transitive", some "h", "pkg:maven/h/b@2.0"⟩ =
      "transitive" :=
  ⟨(json_tree_root_direct_rest_transitive "g" "a" "1.0" (some "test")
      [MavenArtifact.mk "h" "b" "2.0" none []] true (Or.inl rfl)).1,
    (json_tree_root_direct_rest_transitive "g" "a" "1.0" (some "test")
      [MavenArtifact.mk "h" "b" "2.0" none []] true (Or.inl rfl)).2 _ (by decide)⟩

/-- C10: the POM fallback emits a component only for a dependency declaring
a literal version: a dependency whose version element is absent, empty, or
beginning with the property placeholder prefix is omitted without affecting
the components of the surrounding dependencies, and every emitted component
carries a nonempty version that does not begin with the placeholder
prefix. -/
theorem pom_dep_requires_literal_version :
    (∀ (incl : Bool) (pre post : List PomDep) (d : PomDep),
        literal_version d.version = false →
        parse_single_pom (Except.ok (pre ++ d :: post)) incl =
          parse_single_pom (Except.ok (pre ++ post)) incl) ∧
    (∀ (incl : Bool) (deps : List PomDep) (c : Component),
        c ∈ parse_single_pom (Except.ok deps) incl →
        c.version ≠ "" ∧ startswith c.version "$\x7b" = false) := by
  constructor
  · intro incl pre post d hd
    simp only [parse_single_pom]
    simp [List.filterMap_append, List.filterMap_cons, parse_pom_dep_none incl d hd]
  · intro incl deps c h
    exact ⟨(parse_single_pom_spec _ incl c h).2.2.1, (parse_single_pom_spec _ incl c h).2.2.2⟩

theorem pom_dep_requires_literal_version_witness :
    parse_single_pom (Except.ok ([] ++ (⟨some "g", "x", some "$\x7bver\x7d", none⟩ : PomDep) ::
        [⟨some "g", "a", some "1.0", none⟩])) false =
      parse_single_pom (Except.ok ([] ++ [(⟨some "g", "a", some "1.0", none⟩ : PomDep)])) false ∧
    (Component.version ⟨"a", "1.0", "library", "direct", some "g", "pkg:maven/g/a@1.0"⟩ ≠ "" ∧
      startswith (Component.version
        ⟨"a", "1.0", "library", "direct", some "g", "pkg:maven/g/a@1.0"⟩) "$\x7b" = false) :=
  ⟨pom_dep_requires_literal_version.1 false [] [⟨some "g", "a", some "1.0", none⟩] _ (by decide),
    pom_dep_requires_literal_version.2 false [⟨some "g", "a", some "1.0", none⟩] _ (by decide)⟩
